import Mathlib

/-!
Verification development for the Directory Navigation & Listing Engine of
flachesis/file-explorer (src/main.rs).

Embedding conventions:
* A filesystem path is modelled as the list of its components below the root
  (`EPath`); `[]` is the filesystem root `/`.  `Path::join` appends a
  component, `Path::parent` drops the last component and is `none` at the
  root, `Path::ends_with("..")` tests the last component, and
  `Path::file_name` is `none` at the root and for paths terminating in the
  `..` component (Rust documented behaviour), otherwise the last component.
* The OS resolves `..` components during path lookup; `resolvePath` performs
  that resolution (POSIX: the parent of the root is the root) and every
  filesystem query goes through it.
* The filesystem itself is an oracle `FS`: `metadata` returns stat data for
  an existing (normalized) path, `readDir` returns either the child names a
  successful `fs::read_dir` iteration yields (entries whose iteration step
  errors are skipped by the source loop, so they simply do not appear) or
  the error message of a failed `read_dir`.  The oracle is fixed for the
  duration of one modelled call, i.e. races inside a single call are out of
  scope.
* `Path::is_dir()` in Rust is `fs::metadata(path).map(|m| m.is_dir()).unwrap_or(false)`;
  `fsIsDir` is its direct transcription.
* `slice::sort_by` is a stable sort.  Under a comparator that induces a
  total preorder a stable sort has a unique result, so it is embedded as
  `List.insertionSort` (stable) over the relation "comparator does not
  return `Ordering::Greater`"; totality and transitivity of that relation
  are proved below.
* `OsStr::cmp` compares UTF-8 bytes lexicographically, which coincides with
  lexicographic comparison of the code points; `strCmpAux` is that
  comparison on `List Char`.
-/

/-- A filesystem path: the list of components below the root; `[]` is `/`. -/
abbrev EPath := List String

/-- OS-level resolution of `..` components during path lookup
(the parent of the root is the root). -/
def resolvePath (p : EPath) : EPath :=
  p.foldl (fun acc c => if c = ".." then acc.dropLast else acc ++ [c]) []

/-- Rust `Path::parent`: `None` at the root, otherwise the path without its
last component. -/
def parentPath (p : EPath) : Option EPath :=
  match p with
  | [] => none
  | _ => some p.dropLast

/-- Rust `Path::join` with a single component. -/
def joinPath (p : EPath) (c : String) : EPath := p ++ [c]

/-- Rust `path.ends_with("..")`: the last component is `..`. -/
def endsWithDotDot (p : EPath) : Bool :=
  match p.getLast? with
  | some c => c = ".."
  | none => false

/-- Rust `Path::file_name`: `None` at the root and for a path terminating in
`..`, otherwise the last component. -/
def fileName (p : EPath) : Option String :=
  match p.getLast? with
  | some c => if c = ".." then none else some c
  | none => none

/-- Byte-wise lexicographic comparison of code-point lists; this is what
Rust's `OsStr::cmp` computes on UTF-8 data. -/
def strCmpAux : List Char → List Char → Ordering
  | [], [] => .eq
  | [], _ :: _ => .lt
  | _ :: _, [] => .gt
  | a :: as, b :: bs =>
    if a.toNat < b.toNat then .lt
    else if b.toNat < a.toNat then .gt
    else strCmpAux as bs

/-- Rust `OsStr::cmp` on file names. -/
def cmpStr (a b : String) : Ordering := strCmpAux a.data b.data

/-- Rust `Option::cmp` (`None` orders before `Some`) applied to
`Path::file_name` results. -/
def cmpOptName : Option String → Option String → Ordering
  | none, none => .eq
  | none, some _ => .lt
  | some _, none => .gt
  | some a, some b => cmpStr a b

/-- Stat data returned by `fs::metadata`.  `modified_str` is the already
chrono-formatted local modification time when the OS can report one (the
formatting itself is timezone-dependent OS behaviour, folded into the
oracle; no claim inspects its content). -/
structure FMeta where
  is_dir : Bool
  len : Nat
  modified_str : Option String
deriving DecidableEq

/-- The filesystem oracle, queried on normalized paths. -/
structure FS where
  metadata : EPath → Option FMeta
  readDir : EPath → Except String (List String)

/-- Rust `fs::metadata(path)` (the OS resolves `..` components). -/
def fsMetadata (fs : FS) (p : EPath) : Option FMeta :=
  fs.metadata (resolvePath p)

/-- Rust `path.is_dir()`, i.e.
`fs::metadata(path).map(|m| m.is_dir()).unwrap_or(false)`. -/
def fsIsDir (fs : FS) (p : EPath) : Bool :=
  ((fsMetadata fs p).map FMeta.is_dir).getD false

/-- The comparator passed to `sort_by` in `refresh_entries`
(src/main.rs:75-86): directories first, then `file_name()` comparison. -/
def entryCmp (isDir : EPath → Bool) (a b : EPath) : Ordering :=
  if isDir a && !(isDir b) then .lt
  else if !(isDir a) && isDir b then .gt
  else cmpOptName (fileName a) (fileName b)

/-- The "not greater" relation induced by `entryCmp`; a stable sort orders
its output by this relation. -/
def entryLE (isDir : EPath → Bool) (a b : EPath) : Prop :=
  entryCmp isDir a b ≠ .gt

instance (isDir : EPath → Bool) : DecidableRel (entryLE isDir) :=
  fun a b => inferInstanceAs (Decidable (entryCmp isDir a b ≠ .gt))

/-- Rust `self.entries.sort_by(...)` (stable sort, comparator `entryCmp`);
embedded as the stable `List.insertionSort`. -/
def sortEntries (isDir : EPath → Bool) (l : List EPath) : List EPath :=
  List.insertionSort (entryLE isDir) l

/-- The `FileExplorer` application state (src/main.rs:8-15).  Paths are
`EPath`, indices are `Nat`. -/
structure FileExplorer where
  current_path : EPath
  entries : List EPath
  error_message : Option String
  selected_entry : Option Nat
  path_to_navigate : Option EPath
  needs_repaint : Bool
deriving DecidableEq

/-- Rust `FileExplorer::refresh_entries` (src/main.rs:56-92).  The source
first runs `self.entries.clear()`, then matches on `fs::read_dir`: on
success the cleared vector is repopulated (parent marker when the current
path has a parent, then the children) and stably sorted, and the error is
cleared; on failure the error message is stored and the entries vector is
left as the clear left it, i.e. empty. -/
def refresh_entries (fs : FS) (s : FileExplorer) : FileExplorer :=
  match fs.readDir (resolvePath s.current_path) with
  | .ok names =>
      { s with
        error_message := none,
        entries := sortEntries (fsIsDir fs)
          ((if (parentPath s.current_path).isSome then
              [joinPath s.current_path ".."] else [])
            ++ names.map (fun n => joinPath s.current_path n)) }
  | .error e =>
      { s with
        entries := [],
        error_message := some ("Error reading directory: " ++ e) }

/-- Rust `FileExplorer::navigate_to` (src/main.rs:94-121).  The `eprintln!`
debug logging has no state effect and is dropped. -/
def navigate_to (fs : FS) (s : FileExplorer) (path : EPath) : FileExplorer :=
  if endsWithDotDot path then
    match parentPath s.current_path with
    | some par =>
        { refresh_entries fs { s with current_path := par } with
          needs_repaint := true }
    | none => s
  else if fsIsDir fs path then
    { refresh_entries fs { s with current_path := path } with
      needs_repaint := true }
  else s

/-- Modelled from the spec: the external `human_bytes` crate (called at
src/main.rs:131) is not part of this repository; §4.1 specifies a
human-scaled byte string using base-1024 units.  The unit index is the
base-1024 logarithm of the size. -/
def unitIndex (n : Nat) : Nat := Nat.log 1024 n

/-- Modelled from the spec: the base-1024 unit ladder. -/
def unitNames : List String :=
  ["B", "KB", "MB", "GB", "TB", "PB", "EB", "ZB", "YB"]

/-- Modelled from the spec: the unit label attached to a byte count. -/
def humanUnit (n : Nat) : String := unitNames.getD (unitIndex n) "YB"

/-- Modelled from the spec: the scaled numeric part, one decimal place
(§4.1 leaves the rounding to the implementer; it is not load-bearing). -/
def humanValue (n : Nat) : String :=
  let q := n * 10 / 1024 ^ unitIndex n
  toString (q / 10) ++ "." ++ toString (q % 10)

/-- Modelled from the spec: `human_bytes` renders the scaled value followed
by its base-1024 unit. -/
def human_bytes (n : Nat) : String :=
  humanValue n ++ " " ++ humanUnit n

/-- Rust `FileExplorer::get_file_info` (src/main.rs:123-146): on a
successful `fs::metadata`, the size label is `"<DIR>"` for a directory and
`human_bytes` of the byte length otherwise, and the modified label is the
formatted modification time when available; if `fs::metadata` fails both
labels are empty. -/
def get_file_info (fs : FS) (path : EPath) : String × String :=
  match fsMetadata fs path with
  | some m =>
      (if fsIsDir fs path then "<DIR>" else human_bytes m.len,
       match m.modified_str with
       | some t => t
       | none => "")
  | none => ("", "")

/-- Rust double-click handling in `update` (src/main.rs:224-228):
`open_file_with_default_app` shells out to the OS (modelled as the
`launcher` oracle); on failure its message overwrites `error_message`,
on success the state is untouched. -/
def handle_file_double_click (launcher : EPath → Except String Unit)
    (s : FileExplorer) (entry : EPath) : FileExplorer :=
  match launcher entry with
  | .ok _ => s
  | .error e => { s with error_message := some e }

/-! Concrete fixtures used by the counterexamples and witnesses below. -/

/-- A filesystem on which every directory read fails. -/
def fsC1 : FS :=
  { metadata := fun _ => none,
    readDir := fun _ => .error "permission denied" }

/-- A state that already displays a non-empty listing. -/
def stateC1 : FileExplorer :=
  { current_path := ["d"], entries := [["d", "x.txt"]], error_message := none,
    selected_entry := none, path_to_navigate := none, needs_repaint := false }

/-- The spec §8 example directory: `/d` holds subfolders `a`, `b` and files
`c.txt`, `z.txt`; `read_dir` yields the children in an arbitrary
(unsorted) order. -/
def fsC2 : FS :=
  { metadata := fun p =>
      if p = ([] : EPath) then some ⟨true, 0, none⟩
      else if p = ["d"] then some ⟨true, 0, none⟩
      else if p = ["d", "a"] then some ⟨true, 0, none⟩
      else if p = ["d", "b"] then some ⟨true, 0, none⟩
      else if p = ["d", "c.txt"] then some ⟨false, 3, none⟩
      else if p = ["d", "z.txt"] then some ⟨false, 7, none⟩
      else none,
    readDir := fun p =>
      if p = (["d"] : EPath) then .ok ["z.txt", "a", "c.txt", "b"]
      else .error "not modelled" }

/-- The browser sitting in `/d` before a refresh. -/
def stateC2 : FileExplorer :=
  { current_path := ["d"], entries := [], error_message := none,
    selected_entry := none, path_to_navigate := none, needs_repaint := false }

/-- A filesystem with just the root directory. -/
def fsC3 : FS :=
  { metadata := fun p => if p = ([] : EPath) then some ⟨true, 0, none⟩ else none,
    readDir := fun p => if p = ([] : EPath) then .ok [] else .error "not modelled" }

/-- The browser sitting at the filesystem root. -/
def stateC3 : FileExplorer :=
  { current_path := [], entries := [[".."]], error_message := none,
    selected_entry := none, path_to_navigate := none, needs_repaint := false }

/-- A filesystem containing one ordinary file `/d/x.txt`. -/
def fsC4 : FS :=
  { metadata := fun p =>
      if p = (["d"] : EPath) then some ⟨true, 0, none⟩
      else if p = ["d", "x.txt"] then some ⟨false, 42, none⟩
      else none,
    readDir := fun p =>
      if p = (["d"] : EPath) then .ok ["x.txt"] else .error "not modelled" }

/-- A state used to exercise navigation onto the file of `fsC4`. -/
def stateC4 : FileExplorer :=
  { current_path := ["d"], entries := [["d", "x.txt"]], error_message := none,
    selected_entry := none, path_to_navigate := none, needs_repaint := false }

/-- A filesystem whose directory `/d` has a large reported byte length. -/
def fsC5 : FS :=
  { metadata := fun p => if p = (["d"] : EPath) then some ⟨true, 123456, none⟩ else none,
    readDir := fun _ => .error "not modelled" }

/-- A filesystem containing one 1 MiB file `/f.bin`. -/
def fsC6 : FS :=
  { metadata := fun p =>
      if p = (["f.bin"] : EPath) then some ⟨false, 1048576, none⟩ else none,
    readDir := fun _ => .error "not modelled" }

/-- An oracle classifying every path as a directory. -/
def allDirs : EPath → Bool := fun _ => true

/-- A filesystem exposing a readable root, an unreadable directory `/bad`,
and a file `/f`. -/
def fsC8 : FS :=
  { metadata := fun p =>
      if p = ([] : EPath) then some ⟨true, 0, none⟩
      else if p = ["f"] then some ⟨false, 1, none⟩
      else none,
    readDir := fun p =>
      if p = ([] : EPath) then .ok ["f"]
      else .error "locked" }

/-- An OS launcher with no registered handler: every open attempt fails. -/
def launcherC8 : EPath → Except String Unit :=
  fun _ => .error "Failed to open file: no handler"

/-- A state whose current location is the unreadable `/bad`, carrying a
stale error message that the next failure must overwrite. -/
def stateC8a : FileExplorer :=
  { current_path := ["bad"], entries := [], error_message := some "old message",
    selected_entry := none, path_to_navigate := none, needs_repaint := false }

/-- A state whose current location is the readable root, carrying an error
message that the successful refresh must clear. -/
def stateC8b : FileExplorer :=
  { current_path := [], entries := [], error_message := some "old message",
    selected_entry := none, path_to_navigate := none, needs_repaint := false }

/-- A state carrying a prior error message that a launch failure must
overwrite. -/
def stateC8c : FileExplorer :=
  { current_path := [], entries := [["f"]], error_message := some "old message",
    selected_entry := none, path_to_navigate := none, needs_repaint := false }

/-- An oracle classifying every path as a file. -/
def noDirs : EPath → Bool := fun _ => false

/-- A predicate selecting a single listing element (all selected elements
trivially compare equal). -/
def pC9 : EPath → Bool := fun x => decide (x = ["n"])

/-- An unsorted input listing containing the element selected by `pC9`. -/
def lC9 : List EPath := [["z"], ["n"], ["a"]]

/-- A filesystem on which every query fails, so that the refresh following
a parent navigation is still fully determined. -/
def fsC10 : FS :=
  { metadata := fun _ => none,
    readDir := fun _ => .error "gone" }

/-- The browser sitting in the nested directory `/a/b`. -/
def stateC10 : FileExplorer :=
  { current_path := ["a", "b"], entries := [["a", "b", ".."]], error_message := none,
    selected_entry := none, path_to_navigate := none, needs_repaint := false }

/-! Order-theoretic facts about the sort comparator. -/

/-- Transitivity of the byte-wise "not greater" relation. -/
theorem strCmpAux_trans {x : List Char} : ∀ {y z : List Char},
    strCmpAux x y ≠ .gt → strCmpAux y z ≠ .gt → strCmpAux x z ≠ .gt := by
  induction x with
  | nil => intro y z _ _; cases z <;> simp [strCmpAux]
  | cons a as ih =>
    intro y z h1 h2
    cases y with
    | nil => simp [strCmpAux] at h1
    | cons b bs =>
      cases z with
      | nil => simp [strCmpAux] at h2
      | cons c cs =>
        simp only [strCmpAux] at h1 h2 ⊢
        by_cases hab : a.toNat < b.toNat
        · by_cases hbc : b.toNat < c.toNat
          · have hac : a.toNat < c.toNat := lt_trans hab hbc
            simp [hac]
          · rw [if_neg hbc] at h2
            by_cases hcb : c.toNat < b.toNat
            · rw [if_pos hcb] at h2; exact absurd rfl h2
            · have hac : a.toNat < c.toNat := by omega
              simp [hac]
        · rw [if_neg hab] at h1
          by_cases hba : b.toNat < a.toNat
          · rw [if_pos hba] at h1; exact absurd rfl h1
          · rw [if_neg hba] at h1
            by_cases hbc : b.toNat < c.toNat
            · have hac : a.toNat < c.toNat := by omega
              simp [hac]
            · rw [if_neg hbc] at h2
              by_cases hcb : c.toNat < b.toNat
              · rw [if_pos hcb] at h2; exact absurd rfl h2
              · rw [if_neg hcb] at h2
                have h3 : ¬ a.toNat < c.toNat := by omega
                have h4 : ¬ c.toNat < a.toNat := by omega
                rw [if_neg h3, if_neg h4]
                exact ih h1 h2

/-- Swapping the arguments of the byte-wise comparison swaps the verdict. -/
theorem strCmpAux_swap : ∀ (x y : List Char), strCmpAux y x = (strCmpAux x y).swap := by
  intro x
  induction x with
  | nil => intro y; cases y <;> simp [strCmpAux, Ordering.swap]
  | cons a as ih =>
    intro y
    cases y with
    | nil => simp [strCmpAux, Ordering.swap]
    | cons b bs =>
      simp only [strCmpAux]
      by_cases hab : a.toNat < b.toNat
      · have hba : ¬ b.toNat < a.toNat := by omega
        simp [hab, hba, Ordering.swap]
      · by_cases hba : b.toNat < a.toNat
        · simp [hab, hba, Ordering.swap]
        · simp [hab, hba, ih bs]

/-- Transitivity of the name-key "not greater" relation. -/
theorem cmpOptName_trans {x y z : Option String}
    (h1 : cmpOptName x y ≠ .gt) (h2 : cmpOptName y z ≠ .gt) :
    cmpOptName x z ≠ .gt := by
  cases x with
  | none => cases z <;> simp [cmpOptName]
  | some a =>
    cases y with
    | none => simp [cmpOptName] at h1
    | some b =>
      cases z with
      | none => simp [cmpOptName] at h2
      | some c =>
        simp only [cmpOptName, cmpStr] at h1 h2 ⊢
        exact strCmpAux_trans h1 h2

/-- Swapping the arguments of the name-key comparison swaps the verdict. -/
theorem cmpOptName_swap (x y : Option String) :
    cmpOptName y x = (cmpOptName x y).swap := by
  cases x with
  | none => cases y <;> rfl
  | some a =>
    cases y with
    | none => rfl
    | some b =>
      show cmpStr b a = (cmpStr a b).swap
      exact strCmpAux_swap a.data b.data

/-- The relation a stable `sort_by` run sorts by is transitive. -/
theorem entryLE_trans {isDir : EPath → Bool} {a b c : EPath}
    (h1 : entryLE isDir a b) (h2 : entryLE isDir b c) : entryLE isDir a c := by
  unfold entryLE entryCmp at h1 h2 ⊢
  cases hda : isDir a <;> cases hdb : isDir b <;> cases hdc : isDir c <;>
    simp [hda, hdb, hdc] at h1 h2 ⊢ <;>
    exact cmpOptName_trans h1 h2

/-- The relation a stable `sort_by` run sorts by is total. -/
theorem entryLE_total (isDir : EPath → Bool) (a b : EPath) :
    entryLE isDir a b ∨ entryLE isDir b a := by
  unfold entryLE entryCmp
  cases hda : isDir a <;> cases hdb : isDir b <;> simp [hda, hdb]
  · rw [cmpOptName_swap (fileName a) (fileName b)]
    cases h : cmpOptName (fileName a) (fileName b) <;> simp [Ordering.swap]
  · rw [cmpOptName_swap (fileName a) (fileName b)]
    cases h : cmpOptName (fileName a) (fileName b) <;> simp [Ordering.swap]

/-- The output of the sort is ordered by the comparator relation. -/
theorem sortEntries_sorted (isDir : EPath → Bool) (l : List EPath) :
    List.Sorted (entryLE isDir) (sortEntries isDir l) := by
  haveI : IsTrans EPath (entryLE isDir) := ⟨fun _ _ _ => entryLE_trans⟩
  haveI : IsTotal EPath (entryLE isDir) := ⟨entryLE_total isDir⟩
  exact List.sorted_insertionSort (entryLE isDir) l

/-- Sorting an already sorted listing changes nothing. -/
theorem sortEntries_idem (isDir : EPath → Bool) (l : List EPath) :
    sortEntries isDir (sortEntries isDir l) = sortEntries isDir l :=
  (sortEntries_sorted isDir l).insertionSort_eq

/-- Inserting a selected element when every selected element of the target
list is not below it places it in front of all of them. -/
theorem filter_orderedInsert_pos {α : Type} (r : α → α → Prop) [DecidableRel r]
    (p : α → Bool) (a : α) (l : List α) (hpa : p a = true)
    (hkeep : ∀ b ∈ l, p b = true → r a b) :
    (l.orderedInsert r a).filter p = a :: l.filter p := by
  induction l with
  | nil => simp [List.orderedInsert, hpa]
  | cons b l ih =>
    by_cases hr : r a b
    · simp [List.orderedInsert, hr, List.filter_cons, hpa]
    · have hpb : p b = false := by
        rcases h : p b with _ | _
        · rfl
        · exact absurd (hkeep b (List.mem_cons_self b l) h) hr
      have ih' := ih (fun c hc hpc => hkeep c (List.mem_cons_of_mem _ hc) hpc)
      simp [List.orderedInsert, hr, List.filter_cons, hpb, ih']

/-- Inserting an unselected element does not disturb the selected ones. -/
theorem filter_orderedInsert_neg {α : Type} (r : α → α → Prop) [DecidableRel r]
    (p : α → Bool) (a : α) (l : List α) (hpa : p a = false) :
    (l.orderedInsert r a).filter p = l.filter p := by
  induction l with
  | nil => simp [List.orderedInsert, hpa]
  | cons b l ih =>
    by_cases hr : r a b
    · simp [List.orderedInsert, hr, List.filter_cons, hpa]
    · simp [List.orderedInsert, hr, List.filter_cons, ih]

/-- Stability of the sort: elements the comparator cannot tell apart keep
their relative input order. -/
theorem sortEntries_filter (isDir : EPath → Bool) (p : EPath → Bool)
    (hp : ∀ a b, p a = true → p b = true → entryCmp isDir a b = .eq)
    (l : List EPath) : (sortEntries isDir l).filter p = l.filter p := by
  induction l with
  | nil => rfl
  | cons a l ih =>
    show ((sortEntries isDir l).orderedInsert (entryLE isDir) a).filter p = _
    rcases hpa : p a with _ | _
    · rw [filter_orderedInsert_neg _ p a _ hpa, ih]
      simp [List.filter_cons, hpa]
    · rw [filter_orderedInsert_pos _ p a _ hpa
        (fun b _ hpb => by unfold entryLE; rw [hp a b hpa hpb]; simp), ih]
      simp [List.filter_cons, hpa]

/-- Unpacking of the comparator relation into the two spec-facing clauses:
directory class dominates, names decide inside a class. -/
theorem entryLE_elim {isDir : EPath → Bool} {x y : EPath} (h : entryLE isDir x y) :
    (isDir y = true → isDir x = true) ∧
      (isDir x = isDir y → cmpOptName (fileName x) (fileName y) ≠ .gt) := by
  unfold entryLE entryCmp at h
  cases hx : isDir x <;> cases hy : isDir y <;> simp [hx, hy] at h ⊢ <;> exact h

/-- Claim C1 (counterexample): on a refresh whose directory read fails, the
previously held Listing is NOT left untouched — `refresh_entries` clears
`entries` before calling `read_dir`, so the prior non-empty listing is gone
afterwards. -/
theorem refresh_failure_keeps_listing_cex :
    fsC1.readDir (resolvePath stateC1.current_path) = .error "permission denied" ∧
      (refresh_entries fsC1 stateC1).entries ≠ stateC1.entries :=
  ⟨rfl, by decide⟩

/-- Claim C1 (amended): if refresh fails because the current Location cannot
be enumerated, then for every prior state the error message is stored in
ErrorState, but the Listing is left empty (it was cleared at the start of
the refresh), not untouched; the Location itself is unchanged. -/
theorem refresh_failure_clears_listing (fs : FS) (s : FileExplorer) (e : String)
    (h : fs.readDir (resolvePath s.current_path) = .error e) :
    (refresh_entries fs s).error_message = some ("Error reading directory: " ++ e) ∧
      (refresh_entries fs s).entries = [] ∧
      (refresh_entries fs s).current_path = s.current_path := by
  simp [refresh_entries, h]

/-- Witness for the amended C1 theorem at a concrete failing filesystem. -/
theorem refresh_failure_clears_listing_witness :
    fsC1.readDir (resolvePath stateC1.current_path) = .error "permission denied" ∧
      ((refresh_entries fsC1 stateC1).error_message =
          some ("Error reading directory: " ++ "permission denied") ∧
        (refresh_entries fsC1 stateC1).entries = [] ∧
        (refresh_entries fsC1 stateC1).current_path = stateC1.current_path) :=
  ⟨rfl, refresh_failure_clears_listing fsC1 stateC1 "permission denied" rfl⟩

/-- Claim C2: for every input listing the sort puts each directory-classified
entry (the parent marker included, being directory-classified itself) before
each file-classified entry, and orders entries of equal class by file name
only; concretely, refreshing the spec §8 directory (subfolders `a`, `b`,
files `c.txt`, `z.txt`, read back unsorted) yields
`[.., a, b, c.txt, z.txt]`.  Note the output mentions no full paths in the
name clause: `fileName` is the last component alone. -/
theorem sort_dirs_before_files_and_demo :
    (∀ (isDir : EPath → Bool) (l : List EPath),
        (sortEntries isDir l).Pairwise (fun x y =>
          (isDir y = true → isDir x = true) ∧
            (isDir x = isDir y → cmpOptName (fileName x) (fileName y) ≠ .gt)))
      ∧ (refresh_entries fsC2 stateC2).entries =
          [["d", ".."], ["d", "a"], ["d", "b"], ["d", "c.txt"], ["d", "z.txt"]] := by
  constructor
  · intro isDir l
    exact (sortEntries_sorted isDir l).imp (fun h => entryLE_elim h)
  · decide

/-- Claim C3: when the current Location is a filesystem root, navigating to
the ParentMarker (the path `current_path.join("..")`) is a complete no-op:
the whole state, Location, Listing and ErrorState included, is returned
unchanged and no error is recorded. -/
theorem navigate_parent_at_root_noop (fs : FS) (s : FileExplorer)
    (h : parentPath s.current_path = none) :
    navigate_to fs s (joinPath s.current_path "..") = s := by
  have h1 : endsWithDotDot (joinPath s.current_path "..") = true := by
    simp [endsWithDotDot, joinPath, List.getLast?_concat]
  simp [navigate_to, h1, h]

/-- Witness for C3 at the concrete root state. -/
theorem navigate_parent_at_root_noop_witness :
    parentPath stateC3.current_path = none ∧
      navigate_to fsC3 stateC3 (joinPath stateC3.current_path "..") = stateC3 :=
  ⟨rfl, navigate_parent_at_root_noop fsC3 stateC3 rfl⟩

/-- Claim C4: navigating to any target that is not the parent marker and is
not a directory at call time (a file, or a path that no longer exists)
returns the state unchanged — Location and Listing are untouched and no
error is set. -/
theorem navigate_non_directory_noop (fs : FS) (s : FileExplorer) (path : EPath)
    (h1 : endsWithDotDot path = false) (h2 : fsIsDir fs path = false) :
    navigate_to fs s path = s := by
  simp [navigate_to, h1, h2]

/-- Witness for C4: navigating onto the existing file `/d/x.txt`. -/
theorem navigate_non_directory_noop_witness :
    endsWithDotDot ["d", "x.txt"] = false ∧ fsIsDir fsC4 ["d", "x.txt"] = false ∧
      navigate_to fsC4 stateC4 ["d", "x.txt"] = stateC4 :=
  ⟨by decide, by decide,
    navigate_non_directory_noop fsC4 stateC4 ["d", "x.txt"] (by decide) (by decide)⟩

/-- Claim C5: for every entry that is a directory at display time, whatever
byte length its metadata reports, the size label computed by
`get_file_info` is exactly the literal `"<DIR>"`. -/
theorem size_label_dir (fs : FS) (path : EPath) (h : fsIsDir fs path = true) :
    (get_file_info fs path).fst = "<DIR>" := by
  rcases hm : fsMetadata fs path with _ | m
  · rw [fsIsDir, hm] at h; simp at h
  · simp [get_file_info, hm, h]

/-- Witness for C5 on a directory with a large reported byte length. -/
theorem size_label_dir_witness :
    fsIsDir fsC5 ["d"] = true ∧ (get_file_info fsC5 ["d"]).fst = "<DIR>" :=
  ⟨by decide, size_label_dir fsC5 ["d"] (by decide)⟩

/-- Claim C6: the non-directory size label is `human_bytes` of the byte
length, whose unit scale is base-1024 and monotone in the size; byte
lengths 0 and 1023 stay at the byte unit, and 1048576 reaches the MB
unit. -/
theorem size_label_units (fs : FS) (path : EPath) (m : FMeta)
    (h : fsMetadata fs path = some m) (hdir : m.is_dir = false) :
    (get_file_info fs path).fst = human_bytes m.len ∧
      humanUnit 0 = "B" ∧ humanUnit 1023 = "B" ∧ humanUnit 1048576 = "MB" ∧
      ∀ a b : Nat, a ≤ b → unitIndex a ≤ unitIndex b := by
  refine ⟨?_, ?_, ?_, ?_, ?_⟩
  · have hfd : fsIsDir fs path = false := by simp [fsIsDir, h, hdir]
    simp [get_file_info, h, hfd]
  · simp [humanUnit, unitIndex, Nat.log_zero_right, unitNames]
  · simp [humanUnit, unitIndex, Nat.log_of_lt (by norm_num : (1023 : ℕ) < 1024),
      unitNames]
  · have h2 : Nat.log 1024 1048576 = 2 :=
      Nat.log_eq_of_pow_le_of_lt_pow (by norm_num) (by norm_num)
    simp [humanUnit, unitIndex, h2, unitNames]
  · exact fun a b hab => Nat.log_mono_right hab

/-- Witness for C6 on the concrete 1 MiB file `/f.bin`. -/
theorem size_label_units_witness :
    fsMetadata fsC6 ["f.bin"] = some ⟨false, 1048576, none⟩ ∧
      ((get_file_info fsC6 ["f.bin"]).fst = human_bytes 1048576 ∧
        humanUnit 0 = "B" ∧ humanUnit 1023 = "B" ∧ humanUnit 1048576 = "MB" ∧
        ∀ a b : Nat, a ≤ b → unitIndex a ≤ unitIndex b) :=
  ⟨by decide, size_label_units fsC6 ["f.bin"] ⟨false, 1048576, none⟩ (by decide) rfl⟩

/-- Claim C7 (counterexample): the ParentMarker's name-comparison key is not
the literal two-character string `".."`: `file_name()` of a path ending in
`..` is `None`.  The behavioural difference is observable: against a
directory named `"!"` the comparator yields `lt`, whereas a literal `".."`
key would compare `gt` byte-wise. -/
theorem parent_marker_key_cex :
    fileName (joinPath ["home"] "..") ≠ some ".." ∧
      cmpStr ".." "!" = Ordering.gt ∧
      entryCmp allDirs (joinPath ["home"] "..") (joinPath ["home"] "!") =
        Ordering.lt := by
  refine ⟨by decide, by decide, by decide⟩

/-- Claim C7 (amended): within the sort the ParentMarker's name-comparison
key is `None` (Rust `file_name()` of a path terminating in `..`), which
orders before every `Some` name; consequently the ParentMarker compares
strictly below every ordinary named directory — alphanumeric-named ones in
particular. -/
theorem parent_marker_key_none_sorts_first (isDir : EPath → Bool) (p d : EPath)
    (s : String) (hpd : isDir (joinPath p "..") = true) (hd : isDir d = true)
    (hn : fileName d = some s) :
    fileName (joinPath p "..") = none ∧
      entryCmp isDir (joinPath p "..") d = Ordering.lt := by
  have hfn : fileName (joinPath p "..") = none := by
    simp [fileName, joinPath, List.getLast?_concat]
  refine ⟨hfn, ?_⟩
  simp [entryCmp, hpd, hd, hfn, hn, cmpOptName]

/-- Witness for the amended C7 theorem: the parent marker of `/home`
against the ordinary directory `/home/a`. -/
theorem parent_marker_key_none_sorts_first_witness :
    allDirs (joinPath ["home"] "..") = true ∧ allDirs ["home", "a"] = true ∧
      fileName ["home", "a"] = some "a" ∧
      (fileName (joinPath ["home"] "..") = none ∧
        entryCmp allDirs (joinPath ["home"] "..") ["home", "a"] = Ordering.lt) :=
  ⟨rfl, rfl, by decide,
    parent_marker_key_none_sorts_first allDirs ["home"] ["home", "a"] "a" rfl rfl
      (by decide)⟩

/-- Claim C8: ErrorState is a single optional message: a failing refresh
stores exactly the new read-failure message whatever message was there
before, a successful refresh clears the message to `none`, and a launch
failure overwrites whatever message was there with the launcher's message.
(The state field is an `Option String`, so at most one message can ever be
held.) -/
theorem error_state_single_message (fs : FS) (launcher : EPath → Except String Unit)
    (s₁ s₂ s₃ : FileExplorer) (p : EPath) (e e' : String) (names : List String)
    (h1 : fs.readDir (resolvePath s₁.current_path) = .error e)
    (h2 : fs.readDir (resolvePath s₂.current_path) = .ok names)
    (h3 : launcher p = .error e') :
    (refresh_entries fs s₁).error_message = some ("Error reading directory: " ++ e) ∧
      (refresh_entries fs s₂).error_message = none ∧
      (handle_file_double_click launcher s₃ p).error_message = some e' := by
  refine ⟨?_, ?_, ?_⟩ <;>
    simp [refresh_entries, handle_file_double_click, h1, h2, h3]

/-- Witness for C8: all three states start with a stale message `"old
message"`, which is overwritten or cleared as claimed. -/
theorem error_state_single_message_witness :
    fsC8.readDir (resolvePath stateC8a.current_path) = .error "locked" ∧
      fsC8.readDir (resolvePath stateC8b.current_path) = .ok ["f"] ∧
      launcherC8 ["f"] = .error "Failed to open file: no handler" ∧
      ((refresh_entries fsC8 stateC8a).error_message =
          some ("Error reading directory: " ++ "locked") ∧
        (refresh_entries fsC8 stateC8b).error_message = none ∧
        (handle_file_double_click launcherC8 stateC8c ["f"]).error_message =
          some "Failed to open file: no handler") :=
  ⟨rfl, rfl, rfl,
    error_state_single_message fsC8 launcherC8 stateC8a stateC8b stateC8c ["f"]
      "locked" "Failed to open file: no handler" ["f"] rfl rfl rfl⟩

/-- Claim C9: the sort is idempotent — sorting a sorted listing returns it
unchanged — and stable: any set of entries the comparator ranks equal keeps
its relative input order in the output (it is deterministic by construction,
being a function of the input listing and the classification). -/
theorem sort_idempotent_and_stable (isDir : EPath → Bool) (l : List EPath)
    (p : EPath → Bool)
    (hp : ∀ a b, p a = true → p b = true → entryCmp isDir a b = .eq) :
    sortEntries isDir (sortEntries isDir l) = sortEntries isDir l ∧
      (sortEntries isDir l).filter p = l.filter p :=
  ⟨sortEntries_idem isDir l, sortEntries_filter isDir p hp l⟩

/-- Witness for C9 on a concrete unsorted listing, with the selection
predicate picking the entry named `n`. -/
theorem sort_idempotent_and_stable_witness :
    (∀ a b : EPath, pC9 a = true → pC9 b = true → entryCmp noDirs a b = .eq) ∧
      (sortEntries noDirs (sortEntries noDirs lC9) = sortEntries noDirs lC9 ∧
        (sortEntries noDirs lC9).filter pC9 = lC9.filter pC9) := by
  have hp : ∀ a b : EPath, pC9 a = true → pC9 b = true → entryCmp noDirs a b = .eq := by
    intro a b ha hb
    have ha' : a = ["n"] := of_decide_eq_true ha
    have hb' : b = ["n"] := of_decide_eq_true hb
    subst ha'; subst hb'; decide
  exact ⟨hp, sort_idempotent_and_stable noDirs lC9 pC9 hp⟩

/-- Claim C10: for every path whose final component is `..`, `navigate_to`
ignores every other component of the supplied path — the right-hand side
below does not mention `path` at all — and either sets Location to the
parent of the current Location and refreshes (marking a repaint), or, when
the current Location has no parent, returns the state with no field
changed. -/
theorem navigate_dotdot_uses_current_parent (fs : FS) (s : FileExplorer)
    (path : EPath) (h : endsWithDotDot path = true) :
    navigate_to fs s path =
      (match parentPath s.current_path with
       | some par =>
           { refresh_entries fs { s with current_path := par } with
             needs_repaint := true }
       | none => s) := by
  simp [navigate_to, h]

/-- Witness for C10: navigating by the bare path `..` from `/a/b`. -/
theorem navigate_dotdot_uses_current_parent_witness :
    endsWithDotDot [".."] = true ∧
      navigate_to fsC10 stateC10 [".."] =
        (match parentPath stateC10.current_path with
         | some par =>
             { refresh_entries fsC10 { stateC10 with current_path := par } with
               needs_repaint := true }
         | none => stateC10) :=
  ⟨by decide, navigate_dotdot_uses_current_parent fsC10 stateC10 [".."] (by decide)⟩
